import Mathlib

/-!
Shallow embedding, in Lean 4, of the conversation-context manager, the
investment-analysis pipeline and the model-backend retry logic of the
`invest` Telegram-bot repository (source files `src/chat_context.py`,
`src/bot.py`, `src/models_api.py`, `src/prompts.py`), together with
theorems settling the behavioural claims about them.

Conventions of the embedding:
* Python dictionaries become association lists with first-occurrence
  lookup; in-place mutation of a dict entry becomes `setKey`.
  All reachable states have unique keys, but no lemma below relies on
  uniqueness.
* `datetime` timestamps become `Nat`.
* Fallible code returns `Option`/`Except`; an uncaught Python exception
  is an `Except.error`.
* Model-backend calls (`model_api.get_response(...)`) are an oracle
  parameter `backend : List ApiMessage → Except String String`
  (`.error e` = the call raised an exception whose text is `e`).
-/

namespace Invest

/-- Association-list lookup: the value at the first occurrence of key `k`
(the dictionary semantics of `d[k]` / `k in d`). -/
def lookupKey {κ α : Type} [DecidableEq κ] : List (κ × α) → κ → Option α
  | [], _ => none
  | (k', v) :: t, k => if k' = k then some v else lookupKey t k

/-- Association-list store: `d[k] = v`.  Replaces the value at the first
occurrence of `k` in place, or appends a new entry (Python dicts keep
insertion order, and updating an existing key keeps its position). -/
def setKey {κ α : Type} [DecidableEq κ] : List (κ × α) → κ → α → List (κ × α)
  | [], k, v => [(k, v)]
  | (k', v') :: t, k, v => if k' = k then (k, v) :: t else (k', v') :: setKey t k v

/-- Association-list deletion: `del d[k]`. -/
def eraseKey {κ α : Type} [DecidableEq κ] : List (κ × α) → κ → List (κ × α)
  | [], _ => []
  | (k', v) :: t, k => if k' = k then eraseKey t k else (k', v) :: eraseKey t k

theorem lookupKey_setKey_self {κ α : Type} [DecidableEq κ] (l : List (κ × α)) (k : κ) (v : α) :
    lookupKey (setKey l k v) k = some v := by
  induction l with
  | nil => simp [setKey, lookupKey]
  | cons p t ih =>
    obtain ⟨k', v'⟩ := p
    by_cases h : k' = k
    · simp [setKey, lookupKey, h]
    · simp [setKey, lookupKey, h, ih]

theorem lookupKey_setKey_ne {κ α : Type} [DecidableEq κ] (l : List (κ × α)) (k k' : κ)
    (v : α) (h : k' ≠ k) : lookupKey (setKey l k v) k' = lookupKey l k' := by
  have hk : k ≠ k' := h.symm
  induction l with
  | nil => simp [setKey, lookupKey, hk]
  | cons p t ih =>
    obtain ⟨k0, v0⟩ := p
    by_cases h0 : k0 = k
    · subst h0
      simp [setKey, lookupKey, hk]
    · simp [setKey, lookupKey, h0, ih]

theorem lookupKey_eraseKey_self {κ α : Type} [DecidableEq κ] (l : List (κ × α)) (k : κ) :
    lookupKey (eraseKey l k) k = none := by
  induction l with
  | nil => simp [eraseKey, lookupKey]
  | cons p t ih =>
    obtain ⟨k', v⟩ := p
    by_cases h : k' = k
    · simp [eraseKey, h, ih]
    · simp [eraseKey, lookupKey, h, ih]

theorem lookupKey_eraseKey_ne {κ α : Type} [DecidableEq κ] (l : List (κ × α)) (k k' : κ)
    (h : k' ≠ k) : lookupKey (eraseKey l k) k' = lookupKey l k' := by
  have hk : k ≠ k' := h.symm
  induction l with
  | nil => simp [eraseKey]
  | cons p t ih =>
    obtain ⟨k0, v0⟩ := p
    by_cases h0 : k0 = k
    · subst h0
      simp [eraseKey, lookupKey, hk, ih]
    · simp [eraseKey, lookupKey, h0, ih]

/-! ### Python string primitives

Executable embeddings of `str.replace`, `str.strip` and the `in`
containment test, over `List Char`, so that concrete instances evaluate
inside the kernel. -/

/-- Whether `sub` occurs at the start of `l`. -/
def charListStarts : List Char → List Char → Bool
  | _, [] => true
  | [], _ :: _ => false
  | a :: as, b :: bs => a = b && charListStarts as bs

/-- Whether `sub` occurs anywhere in `l`. -/
def charListHas (sub : List Char) : List Char → Bool
  | [] => charListStarts [] sub
  | c :: t => charListStarts (c :: t) sub || charListHas sub t

/-- Python's `sub in s` on strings. -/
def strContainsStr (s sub : String) : Bool :=
  charListHas sub.toList s.toList

/-- Python's `str.replace`: replaces the non-overlapping occurrences of
`pattern`, scanning left to right (callers below always pass a
non-empty pattern).  The fuel argument only bounds the recursion; every
step consumes at least one character, so fuel = length suffices. -/
def replaceCharsFuel (pattern repl : List Char) : Nat → List Char → List Char
  | _, [] => []
  | 0, l => l
  | fuel + 1, c :: rest =>
    if pattern ≠ [] && charListStarts (c :: rest) pattern then
      repl ++ replaceCharsFuel pattern repl fuel (List.drop (pattern.length - 1) rest)
    else
      c :: replaceCharsFuel pattern repl fuel rest

/-- Python's `str.replace` on strings. -/
def pyReplace (s pattern repl : String) : String :=
  ⟨replaceCharsFuel pattern.toList repl.toList s.toList.length s.toList⟩

/-- ASCII whitespace, for `str.strip`. -/
def isSpaceChar (c : Char) : Bool :=
  c = ' ' || c = '\n' || c = '\t' || c = '\r'

/-- Drops leading whitespace. -/
def dropLeadingSpace : List Char → List Char
  | [] => []
  | c :: t => if isSpaceChar c then dropLeadingSpace t else c :: t

/-- Python's `str.strip()`. -/
def pyStrip (s : String) : String :=
  ⟨(dropLeadingSpace (dropLeadingSpace s.toList).reverse).reverse⟩

instance {ε α : Type} [DecidableEq ε] [DecidableEq α] : DecidableEq (Except ε α) :=
  fun x y =>
  match x, y with
  | .ok a, .ok b =>
    if h : a = b then isTrue (by rw [h]) else isFalse (fun hc => h (Except.ok.inj hc))
  | .ok _, .error _ => isFalse (fun hc => Except.noConfusion hc)
  | .error _, .ok _ => isFalse (fun hc => Except.noConfusion hc)
  | .error e, .error f =>
    if h : e = f then isTrue (by rw [h]) else isFalse (fun hc => h (Except.error.inj hc))

/-! ### Data model of `chat_context.py` -/

/-- Source `ChatMessage` (chat_context.py lines 8-18): role, content and a
timestamp whose dataclass default is `datetime.now()`.  Python evaluates
a dataclass default value ONCE, when the `class ChatMessage` statement
executes; the embedding makes the moment of that evaluation explicit as
a `classDefTime : Nat` argument of the constructors below. -/
structure ChatMessage where
  role : String
  content : String
  timestamp : Nat
deriving DecidableEq, Repr

/-- The message dictionary `{'role': ..., 'content': ...}` produced by
`ChatMessage.to_dict` for the model API (the timestamp is dropped). -/
structure ApiMessage where
  role : String
  content : String
deriving DecidableEq, Repr

/-- Source `ChatMessage.to_dict` (chat_context.py lines 16-18). -/
def ChatMessage.to_dict (m : ChatMessage) : ApiMessage :=
  { role := m.role, content := m.content }

/-- Source `ChatMessage(role=role, content=content)` — construction without an
explicit timestamp, as done by `ChatHistory.add_message`: the timestamp
field receives the class-level default, which was evaluated once at
class-definition time (`classDefTime`), not at construction time. -/
def mkChatMessage (classDefTime : Nat) (role content : String) : ChatMessage :=
  { role := role, content := content, timestamp := classDefTime }

/-- Source `ChatHistory` (chat_context.py lines 21-45): a topic, an ordered
message list and an activity flag. -/
structure ChatHistory where
  topic : String
  messages : List ChatMessage
  is_active : Bool
deriving DecidableEq, Repr

/-- Source `ChatHistory.__init__` (lines 24-28). -/
def ChatHistory.new (topic : String) : ChatHistory :=
  { topic := topic, messages := [], is_active := true }

/-- Source `ChatHistory.add_message` (lines 30-34): appends
`ChatMessage(role=role, content=content)`. -/
def ChatHistory.add_message (classDefTime : Nat) (h : ChatHistory)
    (role content : String) : ChatHistory :=
  { h with messages := h.messages ++ [mkChatMessage classDefTime role content] }

/-- Source `ChatHistory.add_message` with the wall-clock time `now` of the call
made explicit.  The Python code does not consult the clock at call time
(the dataclass default was already evaluated), so `now` is unused. -/
def ChatHistory.add_message_at (classDefTime : Nat) (h : ChatHistory)
    (role content : String) (_now : Nat) : ChatHistory :=
  ChatHistory.add_message classDefTime h role content

/-- Source `ChatHistory.get_messages_for_api` (lines 36-40). -/
def ChatHistory.get_messages_for_api (h : ChatHistory) : List ApiMessage :=
  h.messages.map ChatMessage.to_dict

/-- Source `ChatHistory.mark_as_inactive` (lines 42-45). -/
def ChatHistory.mark_as_inactive (h : ChatHistory) : ChatHistory :=
  { h with is_active := false }

/-- The per-user dictionary `Dict[str, ChatHistory]` of topics. -/
abbrev TopicMap := List (String × ChatHistory)

/-- Source `ChatContextManager._contexts : Dict[int, Dict[str, ChatHistory]]`. -/
abbrev Contexts := List (Nat × TopicMap)

/-! ### Operations of `ChatContextManager` (chat_context.py lines 48-161) -/

/-- Source `ChatContextManager.end_active_chats` (lines 79-91): if the user has
a context, and at least one of their chats is active, mark every active
chat inactive (in-place mutation of each `ChatHistory`). -/
def end_active_chats (ctxs : Contexts) (user_id : Nat) : Contexts :=
  match lookupKey ctxs user_id with
  | none => ctxs
  | some tm =>
    if (tm.filter (fun p => p.2.is_active)).isEmpty then ctxs
    else
      setKey ctxs user_id
        (tm.map (fun p => if p.2.is_active then (p.1, p.2.mark_as_inactive) else p))

/-- Source `ChatContextManager.start_new_chat` (lines 65-77): first ends the
user's active chats, creates the user's dict if absent, then stores a
fresh active `ChatHistory` seeded with one system message at
`_contexts[user_id][topic]`.  (Creating an empty dict and then indexing
into it is rendered as `(lookupKey ... ).getD []` followed by `setKey`.) -/
def start_new_chat (classDefTime : Nat) (ctxs : Contexts) (user_id : Nat)
    (topic system_prompt : String) : Contexts :=
  let ctxs1 := end_active_chats ctxs user_id
  let tm := (lookupKey ctxs1 user_id).getD []
  let h := ChatHistory.add_message classDefTime (ChatHistory.new topic) "system" system_prompt
  setKey ctxs1 user_id (setKey tm topic h)

/-- Source `ChatContextManager.cleanup_user_context` (lines 93-110): removes the
user's inactive chats; if the user's dict becomes empty, removes the
user entry itself.  Nothing happens when there is no inactive chat. -/
def cleanup_user_context (ctxs : Contexts) (user_id : Nat) : Contexts :=
  match lookupKey ctxs user_id with
  | none => ctxs
  | some tm =>
    if (tm.filter (fun p => !p.2.is_active)).isEmpty then ctxs
    else
      let remaining := tm.filter (fun p => p.2.is_active)
      if remaining.isEmpty then eraseKey ctxs user_id
      else setKey ctxs user_id remaining

/-- Source `ChatContextManager._check_chat_exists` (lines 156-161). -/
def check_chat_exists (ctxs : Contexts) (user_id : Nat) (topic : String) : Bool :=
  match lookupKey ctxs user_id with
  | none => false
  | some tm => (lookupKey tm topic).isSome

/-- Source `ChatContextManager.add_message` (lines 112-126): raises `ValueError`
when the chat does not exist or is inactive, otherwise appends the
message to the stored history. -/
def add_message (classDefTime : Nat) (ctxs : Contexts) (user_id : Nat)
    (topic role content : String) : Except String Contexts :=
  match lookupKey ctxs user_id with
  | none => .error "чат не найден"
  | some tm =>
    match lookupKey tm topic with
    | none => .error "чат не найден"
    | some h =>
      if h.is_active then
        .ok (setKey ctxs user_id
          (setKey tm topic (ChatHistory.add_message classDefTime h role content)))
      else .error "чат не активен"

/-- Source `ChatContextManager.get_chat_history` (lines 128-134). -/
def get_chat_history (ctxs : Contexts) (user_id : Nat) (topic : String) :
    Option ChatHistory :=
  (lookupKey ctxs user_id).bind (fun tm => lookupKey tm topic)

/-- Source `ChatContextManager.get_messages_for_api` (lines 136-146): the full
history in API form, or `[]` when the chat does not exist. -/
def get_messages_for_api (ctxs : Contexts) (user_id : Nat) (topic : String) :
    List ApiMessage :=
  match get_chat_history ctxs user_id topic with
  | none => []
  | some h => h.get_messages_for_api

/-- Source `ChatContextManager.end_chat` (lines 148-154). -/
def end_chat (ctxs : Contexts) (user_id : Nat) (topic : String) : Contexts :=
  match lookupKey ctxs user_id with
  | none => ctxs
  | some tm =>
    match lookupKey tm topic with
    | none => ctxs
    | some h => setKey ctxs user_id (setKey tm topic h.mark_as_inactive)

/-- Modelled from the spec: `get_limited_messages_for_api` is invoked by
`bot.py` (`process_legacy_query`, line 1014, and
`process_startups_scouting`, line 943) but no definition of it exists in
`chat_context.py`; spec §4.2 `MessagesForModel(userId, topic, limit,
skipSystemPrompt)` is the only description of it: it "returns the full
history when `limit == 0`; otherwise returns the last `limit` non-system
messages (oldest-first) optionally prefixed by the system message", the
prefix being dropped when `skip_system_prompt` is set. -/
def get_limited_messages_for_api (ctxs : Contexts) (user_id : Nat) (topic : String)
    (limit : Nat) (skip_system_prompt : Bool) : List ApiMessage :=
  let msgs := get_messages_for_api ctxs user_id topic
  if limit = 0 then msgs
  else
    let nonSystem := msgs.filter (fun m => m.role ≠ "system")
    let window := nonSystem.drop (nonSystem.length - limit)
    if skip_system_prompt then window
    else (msgs.filter (fun m => m.role = "system")).take 1 ++ window

/-! ### Operation sequences and the single-active-chat invariant -/

/-- One `ChatContextManager` call, for quantifying over call sequences. -/
inductive Op where
  | startNewChat (user_id : Nat) (topic system_prompt : String)
  | addMessage (user_id : Nat) (topic role content : String)
  | endChat (user_id : Nat) (topic : String)
  | endActiveChats (user_id : Nat)
  | cleanupUserContext (user_id : Nat)
deriving DecidableEq, Repr

/-- Effect of one call on the manager store.  A raising `add_message`
(`ValueError`) leaves `_contexts` untouched, which is what the store
looks like after the exception propagates to the caller. -/
def applyOp (classDefTime : Nat) (ctxs : Contexts) : Op → Contexts
  | .startNewChat uid topic sys => start_new_chat classDefTime ctxs uid topic sys
  | .addMessage uid topic role content =>
    match add_message classDefTime ctxs uid topic role content with
    | .ok ctxs' => ctxs'
    | .error _ => ctxs
  | .endChat uid topic => end_chat ctxs uid topic
  | .endActiveChats uid => end_active_chats ctxs uid
  | .cleanupUserContext uid => cleanup_user_context ctxs uid

/-- The store after a call sequence, starting from the freshly
initialised manager (`_initialize`: `self._contexts = {}`). -/
def runOps (classDefTime : Nat) (ops : List Op) : Contexts :=
  ops.foldl (applyOp classDefTime) []

/-- Number of active chats in one user's topic dictionary. -/
def activeCountTM (tm : TopicMap) : Nat :=
  tm.countP (fun p => p.2.is_active)

/-- Number of active `ChatHistory` values belonging to `user_id`. -/
def userActiveCount (ctxs : Contexts) (user_id : Nat) : Nat :=
  activeCountTM ((lookupKey ctxs user_id).getD [])

theorem activeCountTM_deactivated (tm : TopicMap) :
    activeCountTM
      (tm.map (fun p => if p.2.is_active then (p.1, p.2.mark_as_inactive) else p)) = 0 := by
  induction tm with
  | nil => simp [activeCountTM]
  | cons p t ih =>
    by_cases h : p.2.is_active
    · simpa [activeCountTM, List.countP_cons, h, ChatHistory.mark_as_inactive] using ih
    · simpa [activeCountTM, List.countP_cons, h] using ih

theorem userActiveCount_end_active_chats_self (ctxs : Contexts) (uid : Nat) :
    userActiveCount (end_active_chats ctxs uid) uid = 0 := by
  unfold end_active_chats
  cases hl : lookupKey ctxs uid with
  | none => simp [userActiveCount, hl, activeCountTM]
  | some tm =>
    by_cases hg : (tm.filter (fun p => p.2.is_active)).isEmpty
    · have : tm.countP (fun p => p.2.is_active) = 0 := by
        rw [List.countP_eq_length_filter]
        simpa [List.isEmpty_iff_length_eq_zero] using hg
      simp [userActiveCount, hl, hg, activeCountTM, this]
    · simp [userActiveCount, hl, hg, lookupKey_setKey_self, activeCountTM_deactivated]

theorem userActiveCount_end_active_chats_other (ctxs : Contexts) (uid u : Nat)
    (h : u ≠ uid) :
    userActiveCount (end_active_chats ctxs uid) u = userActiveCount ctxs u := by
  unfold end_active_chats
  cases hl : lookupKey ctxs uid with
  | none => rfl
  | some tm =>
    by_cases hg : (tm.filter (fun p => p.2.is_active)).isEmpty
    · simp [hg]
    · simp [userActiveCount, hg, lookupKey_setKey_ne _ _ _ _ h]

theorem activeCountTM_setKey_all_inactive (tm : TopicMap) (k : String) (h : ChatHistory)
    (hall : ∀ p ∈ tm, p.2.is_active = false) :
    activeCountTM (setKey tm k h) = if h.is_active then 1 else 0 := by
  induction tm with
  | nil => by_cases hh : h.is_active <;> simp [activeCountTM, setKey, List.countP_cons, hh]
  | cons p t ih =>
    have hp : p.2.is_active = false := hall p (List.mem_cons_self p t)
    have ht : ∀ q ∈ t, q.2.is_active = false := fun q hq => hall q (List.mem_cons_of_mem p hq)
    by_cases h0 : p.1 = k
    · have htc : t.countP (fun q => q.2.is_active) = 0 :=
        List.countP_eq_zero.mpr (by intro q hq; simp [ht q hq])
      by_cases hh : h.is_active <;>
        simp [activeCountTM, setKey, h0, List.countP_cons, hh, hp, htc]
    · have := ih ht
      by_cases hh : h.is_active <;>
        simpa [activeCountTM, setKey, h0, List.countP_cons, hp, hh] using this

theorem userActiveCount_start_new_chat_self (cdt : Nat) (ctxs : Contexts) (uid : Nat)
    (topic sys : String) :
    userActiveCount (start_new_chat cdt ctxs uid topic sys) uid = 1 := by
  have h0 : userActiveCount (end_active_chats ctxs uid) uid = 0 :=
    userActiveCount_end_active_chats_self ctxs uid
  have h0' : ((lookupKey (end_active_chats ctxs uid) uid).getD []).countP
      (fun p => p.2.is_active) = 0 := by
    simpa [userActiveCount, activeCountTM] using h0
  have hall : ∀ p ∈ (lookupKey (end_active_chats ctxs uid) uid).getD [],
      p.2.is_active = false := by
    intro p hp
    simpa using List.countP_eq_zero.mp h0' p hp
  have hset := activeCountTM_setKey_all_inactive
    ((lookupKey (end_active_chats ctxs uid) uid).getD []) topic
    (ChatHistory.add_message cdt (ChatHistory.new topic) "system" sys) hall
  simp only [start_new_chat, userActiveCount, lookupKey_setKey_self, Option.getD_some]
  rw [hset]
  simp [ChatHistory.add_message, ChatHistory.new]

theorem userActiveCount_start_new_chat_other (cdt : Nat) (ctxs : Contexts)
    (uid u : Nat) (topic sys : String) (h : u ≠ uid) :
    userActiveCount (start_new_chat cdt ctxs uid topic sys) u = userActiveCount ctxs u := by
  unfold start_new_chat
  rw [userActiveCount, lookupKey_setKey_ne _ _ _ _ h]
  exact userActiveCount_end_active_chats_other ctxs uid u h

theorem activeCountTM_setKey_same_flag (tm : TopicMap) (k : String) (h h' : ChatHistory)
    (hl : lookupKey tm k = some h) (hf : h'.is_active = h.is_active) :
    activeCountTM (setKey tm k h') = activeCountTM tm := by
  induction tm with
  | nil => simp [lookupKey] at hl
  | cons p t ih =>
    obtain ⟨k0, v0⟩ := p
    by_cases h0 : k0 = k
    · have hv : v0 = h := by simpa [lookupKey, h0] using hl
      subst hv
      simp [activeCountTM, setKey, h0, List.countP_cons, hf]
    · have hl' : lookupKey t k = some h := by simpa [lookupKey, h0] using hl
      have ihc : (setKey t k h').countP (fun p => p.2.is_active) =
          t.countP (fun p => p.2.is_active) := by
        simpa [activeCountTM] using ih hl'
      simp [activeCountTM, setKey, h0, List.countP_cons, ihc]

theorem activeCountTM_setKey_inactive_le (tm : TopicMap) (k : String) (h : ChatHistory)
    (hf : h.is_active = false) :
    activeCountTM (setKey tm k h) ≤ activeCountTM tm := by
  induction tm with
  | nil => simp [activeCountTM, setKey, List.countP_cons, hf]
  | cons p t ih =>
    obtain ⟨k0, v0⟩ := p
    have ih' : (setKey t k h).countP (fun p => p.2.is_active) ≤
        t.countP (fun p => p.2.is_active) := by
      simpa [activeCountTM] using ih
    by_cases h0 : k0 = k
    · simp [activeCountTM, setKey, h0, List.countP_cons, hf]
    · simp only [activeCountTM, setKey, if_neg h0, List.countP_cons]
      omega

theorem userActiveCount_add_message (cdt : Nat) (ctxs ctxs' : Contexts) (uid : Nat)
    (topic role content : String)
    (hok : add_message cdt ctxs uid topic role content = .ok ctxs') (u : Nat) :
    userActiveCount ctxs' u = userActiveCount ctxs u := by
  cases hl : lookupKey ctxs uid with
  | none => simp [add_message, hl] at hok
  | some tm =>
    cases hl2 : lookupKey tm topic with
    | none => simp [add_message, hl, hl2] at hok
    | some h =>
      by_cases hact : h.is_active
      · have hctxs' : ctxs' = setKey ctxs uid
            (setKey tm topic (ChatHistory.add_message cdt h role content)) := by
          simp [add_message, hl, hl2, hact] at hok
          exact hok.symm
        subst hctxs'
        by_cases hu : u = uid
        · subst hu
          simp only [userActiveCount, lookupKey_setKey_self, Option.getD_some, hl]
          exact activeCountTM_setKey_same_flag tm topic h
            (ChatHistory.add_message cdt h role content) hl2
            (by simp [ChatHistory.add_message])
        · simp only [userActiveCount, lookupKey_setKey_ne _ _ _ _ hu]
      · simp [add_message, hl, hl2, hact] at hok

theorem userActiveCount_end_chat (ctxs : Contexts) (uid : Nat) (topic : String) (u : Nat) :
    userActiveCount (end_chat ctxs uid topic) u ≤ userActiveCount ctxs u := by
  cases hl : lookupKey ctxs uid with
  | none => simp [end_chat, hl]
  | some tm =>
    cases hl2 : lookupKey tm topic with
    | none => simp [end_chat, hl, hl2]
    | some h =>
      by_cases hu : u = uid
      · subst hu
        simp only [end_chat, hl, hl2, userActiveCount, lookupKey_setKey_self,
          Option.getD_some]
        exact activeCountTM_setKey_inactive_le tm topic h.mark_as_inactive
          (by simp [ChatHistory.mark_as_inactive])
      · simp only [end_chat, hl, hl2, userActiveCount, lookupKey_setKey_ne _ _ _ _ hu]
        exact le_refl _

theorem userActiveCount_cleanup (ctxs : Contexts) (uid : Nat) (u : Nat) :
    userActiveCount (cleanup_user_context ctxs uid) u ≤ userActiveCount ctxs u := by
  cases hl : lookupKey ctxs uid with
  | none => simp [cleanup_user_context, hl]
  | some tm =>
    by_cases hg : (tm.filter (fun p => !p.2.is_active)).isEmpty
    · simp [cleanup_user_context, hl, hg]
    · by_cases he : (tm.filter (fun p => p.2.is_active)).isEmpty
      · by_cases hu : u = uid
        · subst hu
          simp [cleanup_user_context, hl, hg, he, userActiveCount,
            lookupKey_eraseKey_self, activeCountTM]
        · have heq := lookupKey_eraseKey_ne ctxs uid u hu
          simp [cleanup_user_context, hl, hg, he, userActiveCount, heq]
      · by_cases hu : u = uid
        · subst hu
          simp only [cleanup_user_context, hl, hg, he, userActiveCount,
            lookupKey_setKey_self, Option.getD_some, if_neg, Bool.false_eq_true,
            ite_false]
          have hsub : (tm.filter (fun p => p.2.is_active)).Sublist tm :=
            List.filter_sublist tm
          simpa [activeCountTM] using hsub.countP_le (fun p => p.2.is_active)
        · simp only [cleanup_user_context, hl, hg, he, userActiveCount,
            lookupKey_setKey_ne _ _ _ _ hu, if_neg, Bool.false_eq_true, ite_false]
          simp

theorem userActiveCount_applyOp (cdt : Nat) (ctxs : Contexts) (op : Op) (u : Nat)
    (hinv : userActiveCount ctxs u ≤ 1) :
    userActiveCount (applyOp cdt ctxs op) u ≤ 1 := by
  cases op with
  | startNewChat uid topic sys =>
    by_cases hu : u = uid
    · subst hu
      simp [applyOp, userActiveCount_start_new_chat_self]
    · simpa [applyOp, userActiveCount_start_new_chat_other cdt ctxs uid u topic sys hu]
        using hinv
  | addMessage uid topic role content =>
    rw [applyOp]
    cases hok : add_message cdt ctxs uid topic role content with
    | ok ctxs' =>
      simpa [userActiveCount_add_message cdt ctxs ctxs' uid topic role content hok u]
        using hinv
    | error e => exact hinv
  | endChat uid topic =>
    exact le_trans (by simpa [applyOp] using userActiveCount_end_chat ctxs uid topic u) hinv
  | endActiveChats uid =>
    by_cases hu : u = uid
    · subst hu
      simp [applyOp, userActiveCount_end_active_chats_self]
    · simpa [applyOp, userActiveCount_end_active_chats_other ctxs uid u hu] using hinv
  | cleanupUserContext uid =>
    exact le_trans (by simpa [applyOp] using userActiveCount_cleanup ctxs uid u) hinv

theorem userActiveCount_runOps_aux (cdt : Nat) (ops : List Op) (ctxs : Contexts)
    (hinv : ∀ u, userActiveCount ctxs u ≤ 1) :
    ∀ u, userActiveCount (ops.foldl (applyOp cdt) ctxs) u ≤ 1 := by
  induction ops generalizing ctxs with
  | nil => exact hinv
  | cons op t ih =>
    intro u
    exact ih (applyOp cdt ctxs op) (fun v => userActiveCount_applyOp cdt ctxs op v (hinv v)) u

/-! ### Round trips through `add_message` -/

/-- A sequence of `ChatContextManager.add_message` calls for one
(user, topic), stopping at the first raised `ValueError`. -/
def addAll (classDefTime : Nat) (user_id : Nat) (topic : String) :
    Contexts → List (String × String) → Except String Contexts
  | ctxs, [] => .ok ctxs
  | ctxs, (role, content) :: rest =>
    match add_message classDefTime ctxs user_id topic role content with
    | .ok ctxs' => addAll classDefTime user_id topic ctxs' rest
    | .error e => .error e

theorem get_chat_history_start_new_chat_self (cdt : Nat) (ctxs : Contexts) (uid : Nat)
    (topic sys : String) :
    get_chat_history (start_new_chat cdt ctxs uid topic sys) uid topic =
      some (ChatHistory.add_message cdt (ChatHistory.new topic) "system" sys) := by
  simp [get_chat_history, start_new_chat, lookupKey_setKey_self]

theorem addAll_messages (cdt : Nat) (uid : Nat) (topic : String)
    (ps : List (String × String)) :
    ∀ ctxs h, get_chat_history ctxs uid topic = some h → h.is_active = true →
      (addAll cdt uid topic ctxs ps).map (fun st => get_messages_for_api st uid topic) =
        .ok (h.get_messages_for_api ++ ps.map (fun p => ApiMessage.mk p.1 p.2)) := by
  induction ps with
  | nil =>
    intro ctxs h hh _
    simp [addAll, get_messages_for_api, Except.map, hh]
  | cons p rest ih =>
    intro ctxs h hh hact
    obtain ⟨role, content⟩ := p
    obtain ⟨tm, hl, hl2⟩ : ∃ tm, lookupKey ctxs uid = some tm ∧
        lookupKey tm topic = some h := by
      cases hl : lookupKey ctxs uid with
      | none => simp [get_chat_history, hl] at hh
      | some tm => exact ⟨tm, rfl, by simpa [get_chat_history, hl] using hh⟩
    have hstep : add_message cdt ctxs uid topic role content =
        .ok (setKey ctxs uid
          (setKey tm topic (ChatHistory.add_message cdt h role content))) := by
      simp [add_message, hl, hl2, hact]
    have hh' : get_chat_history
        (setKey ctxs uid (setKey tm topic (ChatHistory.add_message cdt h role content)))
        uid topic = some (ChatHistory.add_message cdt h role content) := by
      simp [get_chat_history, lookupKey_setKey_self]
    have hact' : (ChatHistory.add_message cdt h role content).is_active = true := by
      simpa [ChatHistory.add_message] using hact
    have := ih _ _ hh' hact'
    simp only [addAll, hstep]
    rw [this]
    simp [ChatHistory.add_message, ChatHistory.get_messages_for_api, ChatMessage.to_dict,
      mkChatMessage]

/-! ### The `/start` and `/reset` handlers (bot.py lines 1662-1703 and 1936-1952) -/

/-- The per-user FSM session of aiogram: the `state.get_data()` key/value
store and the current `UserStates` state, rendered as a string. -/
structure Session where
  data : List (String × String)
  fsm : String
deriving DecidableEq, Repr

/-- Source `ResetStateHandler.process` (bot.py lines 1939-1949): `state.finish()`
(clears the FSM state and the stored data), an answer message, then
`UserStates.ENTERING_PROMPT.set()`.  The handler never touches the
`ChatContextManager`, so the context store is returned unchanged. -/
def reset_process (ctxs : Contexts) (_s : Session) (_user_id : Nat) : Contexts × Session :=
  (ctxs, { data := [], fsm := "UserStates.ENTERING_PROMPT" })

/-- Source `StartHandler.process` (bot.py lines 1665-1700): ends the user's
active chats and cleans up inactive ones; then, for an authorized user,
starts a fresh `investment` chat seeded with the INVESTMENT system
prompt and sets `UserStates.ENTERING_PROMPT` (an unauthorized user is
sent to `UserStates.ACCESS` instead).  `state.get_data()` is not
cleared by this handler. -/
def start_process (cdt : Nat) (ctxs : Contexts) (s : Session) (user_id : Nat)
    (authorized : Bool) (system_prompt : String) : Contexts × Session :=
  let ctxs1 := cleanup_user_context (end_active_chats ctxs user_id) user_id
  if authorized then
    (start_new_chat cdt ctxs1 user_id "investment" system_prompt,
      { s with fsm := "UserStates.ENTERING_PROMPT" })
  else
    (ctxs1, { s with fsm := "UserStates.ACCESS" })

/-! ### The investment-analysis pipeline (`InvestmentAnalysisProcessor`, bot.py) -/

/-- The `{"role": ..., "prompt": ...}` pair produced by
`_parse_classical_prompt` (bot.py lines 578-605). -/
structure RolePrompt where
  role : String
  prompt : String
deriving DecidableEq, Repr

/-- A model backend: the outcome of one `model_api.get_response(messages)`
call (`.error e` = the call raised an exception with text `e`). -/
abbrev Backend := List ApiMessage → Except String String

/-- The dictionary returned by `parse_user_request` (bot.py lines
416-482): it always carries exactly the keys `name`, `market`, `rivals`
and `synergy` (both the parsed branch and the fallback construct this
exact shape). -/
structure AnalysisParams where
  name : String
  market : Nat
  rivals : Nat
  synergy : Nat
deriving DecidableEq, Repr

/-- The fallback result of `parse_user_request` (bot.py line 480). -/
def fallback_result : AnalysisParams :=
  { name := "неизвестная_компания", market := 1, rivals := 1, synergy := 1 }

/-- The JSON object (if any) that the pattern/`json.loads` loop of
`parse_user_request` (bot.py lines 431-456) manages to extract from the
model response.  The regex/JSON machinery itself is kept abstract: an
extraction oracle maps the cleaned response to at most one such object
(`none` = every pattern failed to yield parseable JSON; per-pattern
`JSONDecodeError`s are caught inside the loop). -/
structure ExtractedJson where
  name : Option String
  market : Option Nat
  rivals : Option Nat
  synergy : Option Nat
deriving DecidableEq, Repr

/-- Source `InvestmentAnalysisProcessor.parse_user_request` (bot.py lines
416-482), parametrised by the outcome of the parsing model call and by
the JSON-extraction oracle.  Every exception inside the `try` block is
caught by the trailing `except Exception` and leads to the fallback
return, so the embedded function is total. -/
def parse_user_request (backend_outcome : Except String String)
    (extract : String → Option ExtractedJson) : AnalysisParams :=
  match backend_outcome with
  | .error _ => fallback_result
  | .ok response =>
    match extract (pyStrip response) with
    | none => fallback_result
    | some r =>
      match r.name with
      | none => fallback_result
      | some nm =>
        if nm ≠ "" ∧ pyStrip nm ≠ "" then
          { name := nm, market := r.market.getD 1, rivals := r.rivals.getD 1,
            synergy := r.synergy.getD 1 }
        else fallback_result

/-- Source `additional_context` of `run_analysis` (bot.py lines 493-495): the
only extra context a step receives, derived from the uploaded file. -/
def additional_file_context (file_content : String) : String :=
  if file_content ≠ "" then
    "\n\nДополнительная информация из файла:\n" ++ file_content
  else ""

/-- Messages of the `market` step (bot.py lines 498-515): the
`_parse_classical_prompt` role as system message, and the template with
`[название компании]` replaced by the company name, plus the file
context, as user message. -/
def market_messages (parseClassical : String → RolePrompt) (market_prompt_raw : String)
    (company_name file_content : String) : List ApiMessage :=
  let parsed := parseClassical market_prompt_raw
  [⟨"system", parsed.role⟩,
   ⟨"user", pyReplace parsed.prompt "[название компании]" company_name ++
      additional_file_context file_content⟩]

/-- Messages of the `rivals` step (bot.py lines 521-538), built exactly
like the market step from its own template. -/
def rivals_messages (parseClassical : String → RolePrompt) (rivals_prompt_raw : String)
    (company_name file_content : String) : List ApiMessage :=
  let parsed := parseClassical rivals_prompt_raw
  [⟨"system", parsed.role⟩,
   ⟨"user", pyReplace parsed.prompt "[название компании]" company_name ++
      additional_file_context file_content⟩]

/-- Messages of the `synergy` step (bot.py lines 544-568):
`SystemPrompts.get_prompt` returns the loaded template text (a `str`,
see prompts.py lines 67-83), so the `isinstance(synergy_prompt_raw, str)`
branch runs: one user message holding the substituted template plus the
file context. -/
def synergy_messages (synergy_prompt_raw : String)
    (company_name file_content : String) : List ApiMessage :=
  [⟨"user", pyReplace synergy_prompt_raw "[название компании]" company_name ++
      additional_file_context file_content⟩]

/-- One step's entry in the results dictionary: the model answer, or the
step's inline error marker concatenated with `str(e)` when the step's
`try` block caught an exception (bot.py lines 517-519, 540-542, 572-574). -/
def step_outcome (r : Except String String) (error_marker : String) : String :=
  match r with
  | .ok s => s
  | .error e => error_marker ++ e

/-- The per-step inline error markers of `run_analysis`. -/
def step_error_marker : String → String
  | "market" => "Ошибка при анализе рынка: "
  | "rivals" => "Ошибка при анализе конкурентов: "
  | _ => "Ошибка при анализе синергии: "

/-- Source `InvestmentAnalysisProcessor.run_analysis` (bot.py lines 485-576):
executes the enabled steps in the fixed order market → rivals → synergy;
each step's model call is wrapped in its own `try`/`except` that records
an inline error string under the step's key, and the following steps run
regardless.  `company_name` is `analysis_params.get("name", ...)`, and
the flags are tested for truthiness (`analysis_params.get("market", 0)`). -/
def run_analysis (parseClassical : String → RolePrompt)
    (market_prompt_raw rivals_prompt_raw synergy_prompt_raw : String)
    (backend : Backend) (analysis_params : AnalysisParams) (file_content : String) :
    List (String × String) :=
  let company_name := analysis_params.name
  (if analysis_params.market ≠ 0 then
    [("market", step_outcome
      (backend (market_messages parseClassical market_prompt_raw company_name file_content))
      (step_error_marker "market"))]
  else []) ++
  (if analysis_params.rivals ≠ 0 then
    [("rivals", step_outcome
      (backend (rivals_messages parseClassical rivals_prompt_raw company_name file_content))
      (step_error_marker "rivals"))]
  else []) ++
  (if analysis_params.synergy ≠ 0 then
    [("synergy", step_outcome
      (backend (synergy_messages synergy_prompt_raw company_name file_content))
      (step_error_marker "synergy"))]
  else [])

/-- The requests `run_analysis` issues to the model backend, step by
step: readable off its body, each step's messages are built from the
step's template, the company name and the file context only. -/
def run_analysis_requests (parseClassical : String → RolePrompt)
    (market_prompt_raw rivals_prompt_raw synergy_prompt_raw : String)
    (analysis_params : AnalysisParams) (file_content : String) :
    List (String × List ApiMessage) :=
  let company_name := analysis_params.name
  (if analysis_params.market ≠ 0 then
    [("market", market_messages parseClassical market_prompt_raw company_name file_content)]
  else []) ++
  (if analysis_params.rivals ≠ 0 then
    [("rivals", rivals_messages parseClassical rivals_prompt_raw company_name file_content)]
  else []) ++
  (if analysis_params.synergy ≠ 0 then
    [("synergy", synergy_messages synergy_prompt_raw company_name file_content)]
  else [])

/-- Source `InvestmentAnalysisProcessor.generate_executive_summary` (bot.py
lines 642-662), parametrised by the extracted document text and the
summarization model call's outcome.  The `except Exception` block (lines
661-662) only logs: the function then falls off its end, implicitly
returning `None` — modelled as `none` — although it is annotated
`-> str`. -/
def generate_executive_summary (doc_content : String)
    (executive_summary_prompt : String) (backend : Backend) : Option String :=
  match backend [⟨"system", executive_summary_prompt⟩,
                 ⟨"user", "Содержимое анализа:\n\n" ++ doc_content⟩] with
  | .ok s => some s
  | .error _ => none

/-! ### The ChatGPT backend strategy (`models_api.py`) -/

/-- The Python exception classes raised by
`ChatGPTStrategy.get_response`. -/
inductive PyError where
  | valueError (msg : String)
  | runtimeError (msg : String)
  | nameError (msg : String)
deriving DecidableEq, Repr

/-- Source `ChatGPTStrategy.get_response` (models_api.py lines 48-78),
parametrised by the outcome of the attempt-indexed
`client.chat.completions.create` call (`calls i` is what attempt `i`
would produce).  The source reads `for attempt in range(3): ...` with a
429-backoff branch, but the loop body can never reach a second
iteration: a successful call returns; a non-429 exception raises
`ValueError`; and the 429 branch executes `await asyncio.sleep(wait)`
while `asyncio` is not a bound name in models_api.py (its imports, lines
1-10, bind logging, ABC, abstractmethod, Dict, List, aiolimiter,
AsyncOpenAI, Config and ExcelFileManager only), so Python raises
`NameError` out of `get_response` instead of sleeping and retrying.
(For the same reason the unqualified `AsyncLimiter` on line 28 is
unbound, so importing the module fails outright.)  The
`raise RuntimeError` fall-through (line 78) is therefore unreachable. -/
def chatgpt_get_response (calls : Nat → Except String String) : Except PyError String :=
  match calls 0 with
  | .ok content => .ok (pyStrip content)
  | .error e =>
    if strContainsStr e "429" then
      .error (.nameError "name 'asyncio' is not defined")
    else
      .error (.valueError ("Не удалось получить ответ от ChatGPT: " ++ e))

/-! ### Concrete sample data used by witnesses and counterexamples -/

/-- A store with one user (id 7) holding one active `investment` chat
with a system seed and three later messages. -/
def sample_ctxs : Contexts :=
  [(7, [("investment",
    { topic := "investment",
      messages := [⟨"system", "sp", 0⟩, ⟨"user", "q1", 0⟩,
                   ⟨"assistant", "a1", 0⟩, ⟨"user", "q2", 0⟩],
      is_active := true })])]

/-- The `_parse_classical_prompt` outcome on an unstructured template
(bot.py lines 592-594): the whole text as context under the default
role. -/
def sample_parse_classical : String → RolePrompt :=
  fun s => { role := "Ты профессиональный аналитик.", prompt := s }

/-- A backend for which the market and synergy calls succeed and the
rivals call raises. -/
def c3_backend : Backend := fun msgs =>
  if msgs = market_messages sample_parse_classical "M" "ACME" "" then .ok "MARKET_OK"
  else if msgs = rivals_messages sample_parse_classical "V" "ACME" "" then .error "boom"
  else .ok "SYNERGY_OK"

/-- A backend whose market step produces a recognisable marker output. -/
def c4_backend_one : Backend := fun msgs =>
  if msgs = market_messages sample_parse_classical "MPROMPT" "ACME" "" then
    .ok "MARKET_OUTPUT_ONE"
  else .ok "OTHER_OUTPUT"

/-- A session captured mid-flow, with stored data and a non-initial
FSM state. -/
def c5_session : Session :=
  { data := [("user_query", "q")], fsm := "UserStates.PROCESSING" }

/-- A store with one user (id 1) holding one active `investment` chat. -/
def c5_ctxs : Contexts :=
  [(1, [("investment",
    { topic := "investment", messages := [⟨"system", "sp", 0⟩], is_active := true })])]

/-- Attempt outcomes of the rate-limit scenario of spec §8: the first
two `create` calls raise a 429 error and the third succeeds. -/
def c7_calls : Nat → Except String String := fun i =>
  if i < 2 then .error "Error code: 429 - Rate limit reached" else .ok "THIRD_ANSWER"

/-- No JSON object with a non-empty `name` is extractable from the
response: the parse model call raised, or no pattern produced parseable
JSON, or the object lacks `name`, or its `name` is empty/blank. -/
def no_extractable_name (backend_outcome : Except String String)
    (extract : String → Option ExtractedJson) : Prop :=
  ∀ response, backend_outcome = .ok response →
    ∀ r, extract (pyStrip response) = some r →
      ∀ nm, r.name = some nm → nm = "" ∨ pyStrip nm = ""

/-- Timestamp of the message appended by an `add_message` call made at
wall-clock time `now`. -/
def added_timestamp (classDefTime : Nat) (h : ChatHistory) (role content : String)
    (now : Nat) : Option Nat :=
  ((ChatHistory.add_message_at classDefTime h role content now).messages.getLast?).map
    ChatMessage.timestamp

/-! ### Claim theorems -/

theorem get_limited_pos (ctxs : Contexts) (uid : Nat) (topic : String) (N : Nat)
    (hN : N ≠ 0) :
    get_limited_messages_for_api ctxs uid topic N true =
      ((get_messages_for_api ctxs uid topic).filter (fun m => m.role ≠ "system")).drop
        (((get_messages_for_api ctxs uid topic).filter
            (fun m => m.role ≠ "system")).length - N) := by
  simp [get_limited_messages_for_api, hN]

/-- Claim C1: with `limit = N > 0` and `skip_system_prompt = true` the
message window holds at most `N` messages, none of them system
messages, and is a suffix of the non-system subsequence of the full
history (hence oldest-first, in history order); with `limit = 0` it is
the full history. -/
theorem claim_C1_window (ctxs : Contexts) (user_id : Nat) (topic : String)
    (N : Nat) (hN : 0 < N) :
    (get_limited_messages_for_api ctxs user_id topic N true).length ≤ N ∧
    (∀ m ∈ get_limited_messages_for_api ctxs user_id topic N true, m.role ≠ "system") ∧
    get_limited_messages_for_api ctxs user_id topic N true <:+
      (get_messages_for_api ctxs user_id topic).filter (fun m => m.role ≠ "system") ∧
    get_limited_messages_for_api ctxs user_id topic 0 true =
      get_messages_for_api ctxs user_id topic := by
  have hN0 : N ≠ 0 := by omega
  rw [get_limited_pos ctxs user_id topic N hN0]
  refine ⟨?_, ?_, ?_, ?_⟩
  · rw [List.length_drop]
    omega
  · intro m hm
    have h1 := List.mem_of_mem_drop hm
    have h2 := List.of_mem_filter h1
    simpa using h2
  · exact ⟨_, List.take_append_drop _ _⟩
  · simp [get_limited_messages_for_api]

/-- Witness for C1 on a concrete store: windowing the 4-message history
of user 7 to the last 2 non-system messages. -/
theorem claim_C1_window_witness :
    (get_limited_messages_for_api sample_ctxs 7 "investment" 2 true).length ≤ 2 ∧
    (∀ m ∈ get_limited_messages_for_api sample_ctxs 7 "investment" 2 true,
        m.role ≠ "system") ∧
    get_limited_messages_for_api sample_ctxs 7 "investment" 2 true <:+
      (get_messages_for_api sample_ctxs 7 "investment").filter
        (fun m => m.role ≠ "system") ∧
    get_limited_messages_for_api sample_ctxs 7 "investment" 0 true =
      get_messages_for_api sample_ctxs 7 "investment" :=
  claim_C1_window sample_ctxs 7 "investment" 2 (by decide)

/-- Claim C2: starting from the freshly initialised manager, after any
sequence of `start_new_chat` / `add_message` / `end_chat` /
`end_active_chats` / `cleanup_user_context` calls, every user has at
most one active `ChatHistory`; and `start_new_chat` twice in a row for
different topics leaves exactly one active history, because it first
deactivates every active history of the user. -/
theorem claim_C2_single_active (classDefTime : Nat) :
    (∀ (ops : List Op) (user_id : Nat),
        userActiveCount (runOps classDefTime ops) user_id ≤ 1) ∧
    (∀ (ctxs : Contexts) (user_id : Nat) (t1 s1 t2 s2 : String),
        userActiveCount
          (start_new_chat classDefTime (start_new_chat classDefTime ctxs user_id t1 s1)
            user_id t2 s2) user_id = 1) := by
  constructor
  · intro ops uid
    exact userActiveCount_runOps_aux classDefTime ops []
      (fun u => by simp [userActiveCount, lookupKey, activeCountTM]) uid
  · intro ctxs uid t1 s1 t2 s2
    exact userActiveCount_start_new_chat_self classDefTime _ uid t2 s2

/-- Claim C3: when all three steps are enabled and the rivals model
call raises while the market and synergy calls succeed, `run_analysis`
still returns entries for all three keys: the successful outputs under
`market` and `synergy` (non-empty when those outputs are), and the
inline error string under `rivals`. -/
theorem claim_C3_per_step_errors (parseClassical : String → RolePrompt)
    (mRaw vRaw sRaw : String) (backend : Backend) (params : AnalysisParams)
    (fc a c e : String)
    (hm : params.market ≠ 0) (hv : params.rivals ≠ 0) (hs : params.synergy ≠ 0)
    (hma : backend (market_messages parseClassical mRaw params.name fc) = .ok a)
    (hra : backend (rivals_messages parseClassical vRaw params.name fc) = .error e)
    (hsa : backend (synergy_messages sRaw params.name fc) = .ok c)
    (hane : a ≠ "") (hcne : c ≠ "") :
    lookupKey (run_analysis parseClassical mRaw vRaw sRaw backend params fc) "market" =
        some a ∧
    lookupKey (run_analysis parseClassical mRaw vRaw sRaw backend params fc) "synergy" =
        some c ∧
    lookupKey (run_analysis parseClassical mRaw vRaw sRaw backend params fc) "rivals" =
        some ("Ошибка при анализе конкурентов: " ++ e) ∧
    a ≠ "" ∧ c ≠ "" := by
  refine ⟨?_, ?_, ?_, hane, hcne⟩ <;>
    simp [run_analysis, hm, hv, hs, hma, hra, hsa, step_outcome, step_error_marker,
      lookupKey]

/-- Witness for C3 with a backend whose rivals call raises `boom`. -/
theorem claim_C3_per_step_errors_witness :
    lookupKey (run_analysis sample_parse_classical "M" "V" "S" c3_backend
        ⟨"ACME", 1, 1, 1⟩ "") "market" = some "MARKET_OK" ∧
    lookupKey (run_analysis sample_parse_classical "M" "V" "S" c3_backend
        ⟨"ACME", 1, 1, 1⟩ "") "synergy" = some "SYNERGY_OK" ∧
    lookupKey (run_analysis sample_parse_classical "M" "V" "S" c3_backend
        ⟨"ACME", 1, 1, 1⟩ "") "rivals" =
      some ("Ошибка при анализе конкурентов: " ++ "boom") ∧
    ("MARKET_OK" : String) ≠ "" ∧ ("SYNERGY_OK" : String) ≠ "" :=
  claim_C3_per_step_errors sample_parse_classical "M" "V" "S" c3_backend
    ⟨"ACME", 1, 1, 1⟩ "" "MARKET_OK" "SYNERGY_OK" "boom"
    (by decide) (by decide) (by decide) (by decide) (by decide) (by decide)
    (by decide) (by decide)

/-- Counterexample to claim C4: for the concrete run in which the
market step completed with output `MARKET_OUTPUT_ONE`, the synergy
step's model call receives only the substituted synergy template — a
message list that nowhere contains the market output, so a later step
does NOT receive the outputs of earlier completed steps. -/
theorem claim_C4_counterexample :
    lookupKey (run_analysis sample_parse_classical "MPROMPT" "VPROMPT" "SPROMPT"
        c4_backend_one ⟨"ACME", 1, 1, 1⟩ "") "market" = some "MARKET_OUTPUT_ONE" ∧
    lookupKey (run_analysis_requests sample_parse_classical "MPROMPT" "VPROMPT" "SPROMPT"
        ⟨"ACME", 1, 1, 1⟩ "") "synergy" = some (synergy_messages "SPROMPT" "ACME" "") ∧
    (∀ m ∈ synergy_messages "SPROMPT" "ACME" "",
        strContainsStr m.content "MARKET_OUTPUT_ONE" = false) := by
  refine ⟨by decide, by decide, by decide⟩

/-- Claim C4 as amended: each executed step's result is
`step_outcome` of the backend applied to that step's own request — the
company name substituted into the step's template plus the file-derived
context — and the request list is built without the backend, so no
step's messages can depend on an earlier step's output. -/
theorem claim_C4_amended (parseClassical : String → RolePrompt)
    (mRaw vRaw sRaw : String) (backend : Backend) (params : AnalysisParams)
    (fc : String) :
    run_analysis parseClassical mRaw vRaw sRaw backend params fc =
      (run_analysis_requests parseClassical mRaw vRaw sRaw params fc).map
        (fun p => (p.1, step_outcome (backend p.2) (step_error_marker p.1))) := by
  by_cases hm : params.market ≠ 0 <;> by_cases hv : params.rivals ≠ 0 <;>
    by_cases hs : params.synergy ≠ 0 <;>
      simp [run_analysis, run_analysis_requests, hm, hv, hs]

/-- Counterexample to claim C5: on a store whose user 1 has an active
`investment` history, the `/reset` handler returns the store unchanged —
the history is still active afterwards, so `/reset` does not
force-terminate the active `ChatHistory`. -/
theorem claim_C5_counterexample :
    (reset_process c5_ctxs c5_session 1).1 = c5_ctxs ∧
    (get_chat_history (reset_process c5_ctxs c5_session 1).1 1 "investment").map
        ChatHistory.is_active = some true ∧
    userActiveCount (reset_process c5_ctxs c5_session 1).1 1 = 1 := by
  refine ⟨rfl, by decide, by decide⟩

/-- Claim C5 as amended: `/reset` clears the stored per-session data
and transitions to `ENTERING_PROMPT`, but leaves the chat-context store
(and hence any active `ChatHistory`) untouched; only `/start`
deactivates the user's chats, cleans them up and seeds the fresh active
`investment` chat before entering the same state. -/
theorem claim_C5_amended (cdt : Nat) (ctxs : Contexts) (s : Session) (user_id : Nat)
    (sys : String) :
    reset_process ctxs s user_id =
      (ctxs, { data := [], fsm := "UserStates.ENTERING_PROMPT" }) ∧
    (start_process cdt ctxs s user_id true sys).2.fsm = "UserStates.ENTERING_PROMPT" ∧
    get_chat_history (start_process cdt ctxs s user_id true sys).1 user_id "investment" =
      some (ChatHistory.add_message cdt (ChatHistory.new "investment") "system" sys) ∧
    userActiveCount (start_process cdt ctxs s user_id true sys).1 user_id = 1 := by
  refine ⟨rfl, by simp [start_process], ?_, ?_⟩
  · simp [start_process, get_chat_history_start_new_chat_self]
  · simp [start_process, userActiveCount_start_new_chat_self]

/-- Claim C6 is a code bug: when the summarization model call raises,
`generate_executive_summary` returns `None` (its `except` block only
logs, and the function is annotated `-> str`), not a "summary
unavailable" string; the caller (`process_investment_analysis`, bot.py
line 881) then passes that `None` to `send_markdown_response`, whose
`len(escaped_response)` raises `TypeError`, aborting the flow into the
generic error handler instead of showing the assembled document. -/
theorem claim_C6_code_bug :
    generate_executive_summary "Анализ рынка" "SUMMARY_PROMPT"
        (fun _ => .error "model call failed") = none ∧
    ∀ s : String, generate_executive_summary "Анализ рынка" "SUMMARY_PROMPT"
        (fun _ => .error "model call failed") ≠ some s := by
  refine ⟨rfl, fun s h => ?_⟩
  simp [generate_executive_summary] at h

/-- Claim C7 is a code bug: on the spec §8 scenario — the first two
attempts raise 429 errors and the third would succeed —
`ChatGPTStrategy.get_response` does not return the third attempt's
content after two retries; its 429 branch evaluates
`asyncio.sleep(wait)` with `asyncio` unbound (models_api.py imports no
`asyncio`), so the first 429 raises `NameError` out of the method and
no retry ever happens. -/
theorem claim_C7_code_bug :
    chatgpt_get_response c7_calls =
      .error (.nameError "name 'asyncio' is not defined") ∧
    c7_calls 0 = .error "Error code: 429 - Rate limit reached" ∧
    c7_calls 1 = .error "Error code: 429 - Rate limit reached" ∧
    c7_calls 2 = .ok "THIRD_ANSWER" := by
  refine ⟨by decide, by decide, by decide, by decide⟩

/-- Claim C8: `parse_user_request` is total (the embedding is a total
function into `AnalysisParams`, whose fields are exactly the keys
`name`, `market`, `rivals`, `synergy`, present in every return), and
whenever no JSON object with a non-empty `name` can be extracted from
the model response it returns the documented fallback: the unknown
company with all three steps enabled. -/
theorem claim_C8_parse_fallback (b : Except String String)
    (extract : String → Option ExtractedJson)
    (hno : no_extractable_name b extract) :
    parse_user_request b extract = fallback_result ∧
    fallback_result =
      { name := "неизвестная_компания", market := 1, rivals := 1, synergy := 1 } := by
  refine ⟨?_, rfl⟩
  cases b with
  | error e => rfl
  | ok response =>
    cases he : extract (pyStrip response) with
    | none => simp [parse_user_request, he]
    | some r =>
      cases hn : r.name with
      | none => simp [parse_user_request, he, hn]
      | some nm =>
        have hdisj := hno response rfl r he nm hn
        cases hdisj with
        | inl h1 => simp [parse_user_request, he, hn, h1]
        | inr h2 => simp [parse_user_request, he, hn, h2]

/-- Witness for C8: a response from which nothing is extractable. -/
theorem claim_C8_parse_fallback_witness :
    parse_user_request (.ok "Извините, JSON не найден") (fun _ => none) =
      fallback_result ∧
    fallback_result =
      { name := "неизвестная_компания", market := 1, rivals := 1, synergy := 1 } :=
  claim_C8_parse_fallback (.ok "Извините, JSON не найден") (fun _ => none)
    (fun response _ r hr => by simp at hr)

/-- Claim C9: on an active chat, every `add_message` in the sequence
succeeds, and the full-history read (`limit == 0`) afterwards is
exactly the prior history followed by the added messages in insertion
order with roles and contents preserved; instantiated for a freshly
started chat this is the seeding system message followed by exactly the
added messages. -/
theorem claim_C9_round_trip (cdt user_id : Nat) (topic : String)
    (ps : List (String × String)) (ctxs : Contexts) (h : ChatHistory) (sk : Bool)
    (ctxs0 : Contexts) (sys : String)
    (hh : get_chat_history ctxs user_id topic = some h) (hact : h.is_active = true) :
    (addAll cdt user_id topic ctxs ps).map
        (fun st => get_limited_messages_for_api st user_id topic 0 sk) =
      .ok (h.get_messages_for_api ++ ps.map (fun p => ApiMessage.mk p.1 p.2)) ∧
    (addAll cdt user_id topic (start_new_chat cdt ctxs0 user_id topic sys) ps).map
        (fun st => get_limited_messages_for_api st user_id topic 0 sk) =
      .ok (ApiMessage.mk "system" sys :: ps.map (fun p => ApiMessage.mk p.1 p.2)) := by
  have hfun : (fun st : Contexts => get_limited_messages_for_api st user_id topic 0 sk) =
      (fun st => get_messages_for_api st user_id topic) := by
    funext st
    simp [get_limited_messages_for_api]
  constructor
  · rw [hfun]
    exact addAll_messages cdt user_id topic ps ctxs h hh hact
  · rw [hfun]
    have hh0 := get_chat_history_start_new_chat_self cdt ctxs0 user_id topic sys
    have hact0 : (ChatHistory.add_message cdt (ChatHistory.new topic) "system" sys).is_active
        = true := by
      simp [ChatHistory.add_message, ChatHistory.new]
    have := addAll_messages cdt user_id topic ps _ _ hh0 hact0
    simpa [ChatHistory.add_message, ChatHistory.new, ChatHistory.get_messages_for_api,
      ChatMessage.to_dict, mkChatMessage] using this

/-- Witness for C9: two messages added to a freshly started chat of
user 5 round-trip behind the system seed. -/
theorem claim_C9_round_trip_witness :
    (addAll 0 5 "investment" (start_new_chat 0 [] 5 "investment" "sp")
        [("user", "hi"), ("assistant", "yo")]).map
        (fun st => get_limited_messages_for_api st 5 "investment" 0 true) =
      .ok ((ChatHistory.add_message 0 (ChatHistory.new "investment") "system"
          "sp").get_messages_for_api ++
        [("user", "hi"), ("assistant", "yo")].map (fun p => ApiMessage.mk p.1 p.2)) ∧
    (addAll 0 5 "investment" (start_new_chat 0 [] 5 "investment" "sp")
        [("user", "hi"), ("assistant", "yo")]).map
        (fun st => get_limited_messages_for_api st 5 "investment" 0 true) =
      .ok (ApiMessage.mk "system" "sp" ::
        [("user", "hi"), ("assistant", "yo")].map (fun p => ApiMessage.mk p.1 p.2)) :=
  claim_C9_round_trip 0 5 "investment" [("user", "hi"), ("assistant", "yo")]
    (start_new_chat 0 [] 5 "investment" "sp")
    (ChatHistory.add_message 0 (ChatHistory.new "investment") "system" "sp") true
    [] "sp" (by decide) (by decide)

/-- Claim C10: a message appended by `ChatHistory.add_message` at any
wall-clock time carries the class-definition-time default timestamp:
two messages added at different times have equal timestamps, and the
timestamp does not record the insertion time. -/
theorem claim_C10_shared_timestamp (classDefTime t1 t2 : Nat) (h1 h2 : ChatHistory)
    (r1 c1 r2 c2 : String) (_hne : t1 ≠ t2) (hcd : classDefTime ≠ t1) :
    added_timestamp classDefTime h1 r1 c1 t1 = some classDefTime ∧
    added_timestamp classDefTime h2 r2 c2 t2 = some classDefTime ∧
    added_timestamp classDefTime h1 r1 c1 t1 = added_timestamp classDefTime h2 r2 c2 t2 ∧
    added_timestamp classDefTime h1 r1 c1 t1 ≠ some t1 := by
  have key : ∀ (h : ChatHistory) (r c : String) (t : Nat),
      added_timestamp classDefTime h r c t = some classDefTime := by
    intro h r c t
    simp [added_timestamp, ChatHistory.add_message_at, ChatHistory.add_message,
      mkChatMessage]
  refine ⟨key h1 r1 c1 t1, key h2 r2 c2 t2, ?_, ?_⟩
  · rw [key h1 r1 c1 t1, key h2 r2 c2 t2]
  · rw [key h1 r1 c1 t1]
    intro hcontra
    exact hcd (Option.some.inj hcontra)

/-- Witness for C10: messages added at times 3 and 4 both carry the
class-definition timestamp 5. -/
theorem claim_C10_shared_timestamp_witness :
    added_timestamp 5 (ChatHistory.new "investment") "user" "hi" 3 = some 5 ∧
    added_timestamp 5 (ChatHistory.new "investment") "assistant" "yo" 4 = some 5 ∧
    added_timestamp 5 (ChatHistory.new "investment") "user" "hi" 3 =
      added_timestamp 5 (ChatHistory.new "investment") "assistant" "yo" 4 ∧
    added_timestamp 5 (ChatHistory.new "investment") "user" "hi" 3 ≠ some 3 :=
  claim_C10_shared_timestamp 5 3 4 (ChatHistory.new "investment")
    (ChatHistory.new "investment") "user" "hi" "assistant" "yo" (by decide) (by decide)

end Invest
